import Mathlib

/-!
Verification of the resumable video-upload coordinator of the AlphaAkki
course-platform backend.

The definitions below are a shallow embedding of the TypeScript source:
* `SimplifiedCourseVideoUploadSession` schema (status enum, uploaded-part
  subdocuments, schema-level indexes),
* the S3 multipart adapter (`S3Service.initiateMultipartUpload`,
  `completeMultipartUpload`, `abortMultipartUpload`,
  `getMultipartUploadPartUrl`, `getPublicUrl`),
* the session lifecycle manager (`initiateVideoUpload`,
  `getPresignedPartUrls`, `recordUploadedPart`, `completeVideoUpload`,
  `abortVideoUpload`, `assertUploadSessionOwnership`,
  `resolveVideoDuration`, `buildCompletedUploadResponse`).

Modelling conventions:
* Mongo documents live in an explicit `SysState` (a course list and a
  session list keyed by id); `Model.findById` / `document.save()` become
  lookups and keyed replacement on that state.
* Every external I/O outcome (each `s3Client.send`, `getSignedUrl`) is an
  explicit `Except String _` argument, so an operation is a pure function
  from the pre-state and the adapter outcomes to the post-state and the
  thrown-or-returned result.  An operation returns the post-state even when
  it throws, which makes "what was persisted before the throw" visible.
* JavaScript numbers that carry durations are modelled as `ℚ`, `Math.round`
  as `jsRound` (floor of `q + 1/2`, exactly the ECMAScript definition for
  finite inputs); `NaN`/absent values are `Option.none`.
* `Array.prototype.sort` with the comparator `(a, b) => a.partNumber -
  b.partNumber` is the stable ascending sort by part number, modelled by
  `List.insertionSort` on that key (the source only sorts lists whose keys
  are pairwise distinct, where every ascending sort agrees).
-/

/-- Status enum of `SimplifiedCourseVideoUploadSession` (schema file,
`VideoUploadStatus`). -/
inductive VideoUploadStatus where
  | initiated
  | uploading
  | completed
  | aborted
  | failed
  deriving DecidableEq, Repr

/-- One `(partNumber, eTag)` subdocument of `uploadedParts`. -/
structure UploadedPart where
  partNumber : Nat
  eTag : String
  deriving DecidableEq, Repr

/-- The `SimplifiedCourseVideoUploadSession` document. -/
structure UploadSession where
  course : String
  instructor : String
  initiatorRole : String
  title : String
  fileName : String
  existingVideoOrder : Option Nat
  fileSize : Nat
  mimeType : String
  uploadId : String
  s3Key : String
  partSize : Nat
  totalParts : Nat
  uploadedParts : List UploadedPart
  status : VideoUploadStatus
  autoDetectDuration : Bool
  providedDuration : Option ℚ
  resolvedDuration : Option ℚ
  errorMessage : Option String
  expiresAt : Nat
  completedAt : Option Nat
  deriving DecidableEq, Repr

/-- A video subdocument of a course, as built by `completeVideoUpload`. -/
structure Video where
  title : String
  videoUrl : String
  videoKey : String
  duration : ℚ
  order : Nat
  uploadedAt : Nat
  fileSize : Nat
  deriving DecidableEq, Repr

/-- The slice of a `SimplifiedCourse` document the upload coordinator
touches: its id, its owning instructor and its `videos` array. -/
structure Course where
  id : String
  instructor : String
  videos : List Video
  deriving DecidableEq, Repr

/-- The durable store: the course collection and the upload-session
collection (documents keyed by their id). -/
structure SysState where
  courses : List Course
  sessions : List (String × UploadSession)
  deriving DecidableEq, Repr

/-- The NestJS exceptions thrown by the coordinator, with their messages. -/
inductive SvcError where
  | badRequest (msg : String)
  | notFound (msg : String)
  | forbidden (msg : String)
  deriving DecidableEq, Repr

def SysState.findSession (st : SysState) (sessionId : String) :
    Option UploadSession :=
  (st.sessions.find? (fun p => p.1 == sessionId)).map Prod.snd

def SysState.saveSession (st : SysState) (sessionId : String)
    (session : UploadSession) : SysState :=
  { st with
    sessions := st.sessions.map
      (fun p => if p.1 == sessionId then (p.1, session) else p) }

def SysState.findCourse (st : SysState) (courseId : String) : Option Course :=
  st.courses.find? (fun c => c.id == courseId)

def SysState.saveCourse (st : SysState) (course : Course) : SysState :=
  { st with
    courses := st.courses.map (fun c => if c.id == course.id then course else c) }

/-- The `findOne` filter of `initiateVideoUpload` (status in
`[INITIATED, UPLOADING]` for the given course and instructor). -/
def activeSessionFilter (courseId userId : String)
    (p : String × UploadSession) : Bool :=
  p.2.course == courseId && p.2.instructor == userId &&
    (p.2.status == .initiated || p.2.status == .uploading)

/-- Whether `findOne` on the active-session filter returns a document. -/
def SysState.existsActiveSession (st : SysState) (courseId userId : String) :
    Bool :=
  st.sessions.any (activeSessionFilter courseId userId)

/-- Number of non-terminal sessions of a `(course, instructor)` pair. -/
def SysState.activeSessionCount (st : SysState) (courseId userId : String) :
    Nat :=
  (st.sessions.filter (activeSessionFilter courseId userId)).length

/-! ## The S3 multipart adapter (src s3.service.ts) -/

structure S3Config where
  bucketName : String
  region : String
  deriving DecidableEq, Repr

structure InitiateMultipartUploadResult where
  key : String
  uploadId : String
  bucket : String
  deriving DecidableEq, Repr

/-- `folder.replace(/\/+$/g, '')`: strip trailing slashes. -/
def stripTrailingSlashes (s : String) : String :=
  String.mk ((s.data.reverse.dropWhile (fun c => c == '/')).reverse)

/-- `fileName.split('.')` on the character list: split into the dot
separated groups (JavaScript `String.prototype.split` semantics). -/
def splitOnDot : List Char → List (List Char)
  | [] => [[]]
  | c :: rest =>
    match splitOnDot rest with
    | [] => [[]]
    | g :: gs => if c = '.' then [] :: g :: gs else (c :: g) :: gs

/-- `fileName.includes('.') ? fileName.split('.').pop() : undefined`. -/
def fileExtensionOf (fileName : String) : Option String :=
  if fileName.data.contains '.' then
    ((splitOnDot fileName.data).map String.mk).getLast?
  else none

/-- `S3Service.initiateMultipartUpload`.  `send` is the outcome of
`s3Client.send(CreateMultipartUploadCommand)`: an error message, or the
optional `UploadId` of the response.  The inner missing-upload-id throw
happens inside the `try`, so the catch rewraps its message. -/
def S3Service.initiateMultipartUpload (cfg : S3Config)
    (send : Except String (Option String)) (uuid fileName folder : String) :
    Except SvcError InitiateMultipartUploadResult :=
  let uniqueName :=
    match fileExtensionOf fileName with
    | some ext => uuid ++ "." ++ ext
    | none => uuid
  let key := stripTrailingSlashes folder ++ "/" ++ uniqueName
  match send with
  | .error msg =>
      .error (.badRequest ("Failed to initiate multipart upload: " ++ msg))
  | .ok none =>
      .error (.badRequest
        ("Failed to initiate multipart upload: " ++
         "Failed to initiate multipart upload. Missing upload ID"))
  | .ok (some uploadId) => .ok ⟨key, uploadId, cfg.bucketName⟩

/-- `S3Service.getMultipartUploadPartUrl`.  `send` is the outcome of
`getSignedUrl` for this part. -/
def S3Service.getMultipartUploadPartUrl (send : Except String String)
    (partNumber : Nat) : Except SvcError String :=
  match send with
  | .ok url => .ok url
  | .error msg =>
      .error (.badRequest
        ("Failed to generate presigned URL for part " ++ toString partNumber ++
         ": " ++ msg))

/-- `S3Service.completeMultipartUpload`.  `send` is the outcome of
`s3Client.send(CompleteMultipartUploadCommand)`. -/
def S3Service.completeMultipartUpload (send : Except String Unit) :
    Except SvcError Unit :=
  match send with
  | .ok () => .ok ()
  | .error msg =>
      .error (.badRequest ("Failed to complete multipart upload: " ++ msg))

/-- `S3Service.abortMultipartUpload`.  `send` is the outcome of
`s3Client.send(AbortMultipartUploadCommand)`. -/
def S3Service.abortMultipartUpload (send : Except String Unit) :
    Except SvcError Unit :=
  match send with
  | .ok () => .ok ()
  | .error msg =>
      .error (.badRequest ("Failed to abort multipart upload: " ++ msg))

/-- `S3Service.getPublicUrl`. -/
def S3Service.getPublicUrl (cfg : S3Config) (key : String) : String :=
  "https://" ++ cfg.bucketName ++ ".s3." ++ cfg.region ++ ".amazonaws.com/" ++
    key

/-! ## Mongo schema indexes of the session collection (schema file) -/

/-- A mongoose schema index declaration: its keys and whether it carries a
`unique` option (none of the declared indexes does) or TTL expiry. -/
structure MongoIndex where
  keys : List (String × Int)
  unique : Bool
  expireAfterSeconds : Option Int
  deriving DecidableEq, Repr

/-- The two `SimplifiedCourseVideoUploadSessionSchema.index(...)` calls:
a TTL index on `expiresAt` and a plain (non-unique) compound index on
`(course, instructor, status)`. -/
def sessionSchemaIndexes : List MongoIndex :=
  [ { keys := [("expiresAt", 1)], unique := false, expireAfterSeconds := some 0 },
    { keys := [("course", 1), ("instructor", 1), ("status", 1)],
      unique := false, expireAfterSeconds := none } ]

/-! ## The session lifecycle manager (simplified-courses service) -/

/-- `Math.round` on a finite JavaScript number: `⌊q + 1/2⌋`. -/
def jsRound (q : ℚ) : ℚ := ((⌊q + 1/2⌋ : ℤ) : ℚ)

/-- `InitiateVideoUploadDto` (class-validator constraints are modelled by
`InitiateVideoUploadPayload.Valid` below). -/
structure InitiateVideoUploadPayload where
  title : String
  fileName : String
  fileSize : Nat
  mimeType : String
  partSize : Nat
  totalParts : Nat
  autoDetectDuration : Option Bool
  duration : Option ℚ
  deriving DecidableEq, Repr

/-- The class-validator constraints of `InitiateVideoUploadDto`:
`fileSize` in `[1, 5 GiB]`, `partSize ≥ 5 MiB`, `totalParts ≥ 1`, and —
via `ValidateIf` — a positive `duration` whenever `autoDetectDuration` is
absent or false. -/
def InitiateVideoUploadPayload.Valid (p : InitiateVideoUploadPayload) : Prop :=
  1 ≤ p.fileSize ∧ p.fileSize ≤ 5 * 1024 * 1024 * 1024 ∧
  5 * 1024 * 1024 ≤ p.partSize ∧ 1 ≤ p.totalParts ∧
  (p.autoDetectDuration = some true ∨ ∃ d, p.duration = some d ∧ 0 < d)

structure InitiateResponse where
  sessionId : String
  uploadId : String
  key : String
  bucket : String
  partSize : Nat
  totalParts : Nat
  deriving DecidableEq, Repr

structure PartUrlsResponse where
  sessionId : String
  parts : List (Nat × String)
  deriving DecidableEq, Repr

structure RecordResponse where
  sessionId : String
  uploadedParts : List UploadedPart
  remainingParts : Int
  deriving DecidableEq, Repr

/-- One element of `CompleteVideoUploadDto.parts`. -/
structure CompletePart where
  partNumber : Nat
  eTag : String
  deriving DecidableEq, Repr

structure CompleteResponse where
  sessionId : String
  status : VideoUploadStatus
  video : Option Video
  duration : Option ℚ
  uploadedParts : List UploadedPart
  completedAt : Option Nat
  deriving DecidableEq, Repr

structure AbortResponse where
  sessionId : String
  status : VideoUploadStatus
  deriving DecidableEq, Repr

/-- The `allowedMimeTypes` list of `initiateVideoUpload`. -/
def allowedMimeTypes : List String :=
  ["video/mp4", "video/webm", "video/ogg", "video/mov", "video/avi",
   "video/quicktime"]

/-- The session document `initiateVideoUpload` passes to
`uploadSessionModel.create` (schema defaults fill `expiresAt = now + 24h`,
`existingVideoOrder`, `resolvedDuration`, `errorMessage`). -/
def mkInitSession (courseId userId userRole : String)
    (payload : InitiateVideoUploadPayload)
    (r : InitiateMultipartUploadResult) (now : Nat) : UploadSession :=
  { course := courseId
    instructor := userId
    initiatorRole := userRole
    title := payload.title
    fileName := payload.fileName
    existingVideoOrder := none
    fileSize := payload.fileSize
    mimeType := payload.mimeType
    uploadId := r.uploadId
    s3Key := r.key
    partSize := payload.partSize
    totalParts := payload.totalParts
    uploadedParts := []
    status := .initiated
    autoDetectDuration := (payload.autoDetectDuration).getD true
    providedDuration :=
      match payload.autoDetectDuration with
      | some true => none
      | _ => payload.duration
    resolvedDuration := none
    errorMessage := none
    expiresAt := now + 86400000
    completedAt := none }

/-- The `uploadSessionModel.create` step of `initiateVideoUpload`: the only
write it performs on the session store. -/
def initiateInsertSession (st : SysState) (newSessionId : String)
    (session : UploadSession) : SysState :=
  { st with sessions := st.sessions ++ [(newSessionId, session)] }

/-- The duplicate-session guard of `initiateVideoUpload`: an application
level `findOne` on the active-session filter, executed before (and
separately from) the `create`. -/
def initiateDupCheckPasses (st : SysState) (courseId userId : String) : Bool :=
  !(st.existsActiveSession courseId userId)

/-- `initiateVideoUpload(courseId, userId, userRole, payload)`.
`s3Send` is the outcome of the `CreateMultipartUploadCommand`, `uuid` the
value of `uuidv4()`, `newSessionId` the id Mongo assigns to the created
document, `now` the clock. -/
def initiateVideoUpload (cfg : S3Config) (st : SysState)
    (courseId userId userRole : String)
    (payload : InitiateVideoUploadPayload)
    (s3Send : Except String (Option String)) (uuid newSessionId : String)
    (now : Nat) : SysState × Except SvcError InitiateResponse :=
  if payload.mimeType ∉ allowedMimeTypes then
    (st, .error (.badRequest "Unsupported video type"))
  else
    match st.findCourse courseId with
    | none => (st, .error (.notFound "Course not found"))
    | some course =>
      if userRole ≠ "admin" ∧ course.instructor ≠ userId then
        (st, .error (.forbidden "You can only upload videos for your own courses"))
      else if 5 * 1024 * 1024 * 1024 < payload.fileSize then
        (st, .error (.badRequest "Maximum allowed file size is 5GB"))
      else if st.existsActiveSession courseId userId then
        (st, .error (.badRequest
          "An upload session is already in progress for this course"))
      else
        match S3Service.initiateMultipartUpload cfg s3Send uuid
            payload.fileName "lectures/videos" with
        | .error e => (st, .error e)
        | .ok r =>
          (initiateInsertSession st newSessionId
            (mkInitSession courseId userId userRole payload r now),
           .ok { sessionId := newSessionId, uploadId := r.uploadId,
                 key := r.key, bucket := r.bucket,
                 partSize := payload.partSize,
                 totalParts := payload.totalParts })

/-- `assertUploadSessionOwnership`. -/
def assertUploadSessionOwnership (st : SysState)
    (courseId sessionId userId userRole : String) :
    Except SvcError UploadSession :=
  match st.findSession sessionId with
  | none => .error (.notFound "Upload session not found")
  | some session =>
    if session.course ≠ courseId then
      .error (.badRequest "Upload session does not belong to this course")
    else if session.instructor ≠ userId ∧ userRole ≠ "admin" then
      .error (.forbidden "You do not have access to this upload session")
    else
      .ok session

/-- The `Promise.all` over `getMultipartUploadPartUrl` in
`getPresignedPartUrls`; `sign n` is the `getSignedUrl` outcome for part
`n`. -/
def collectPartUrls (sign : Nat → Except String String) :
    List Nat → Except SvcError (List (Nat × String))
  | [] => .ok []
  | n :: ns =>
    match S3Service.getMultipartUploadPartUrl (sign n) n with
    | .error e => .error e
    | .ok url =>
      match collectPartUrls sign ns with
      | .error e => .error e
      | .ok rest => .ok ((n, url) :: rest)

/-- `getPresignedPartUrls(courseId, sessionId, userId, userRole, payload)`. -/
def getPresignedPartUrls (st : SysState)
    (courseId sessionId userId userRole : String) (partNumbers : List Nat)
    (sign : Nat → Except String String) :
    SysState × Except SvcError PartUrlsResponse :=
  match assertUploadSessionOwnership st courseId sessionId userId userRole with
  | .error e => (st, .error e)
  | .ok session =>
    if session.status = .completed then
      (st, .error (.badRequest "Upload session already completed"))
    else
      match partNumbers.find?
          (fun n => decide (n < 1) || decide (session.totalParts < n)) with
      | some invalidPart =>
        (st, .error (.badRequest
          ("Invalid part number requested: " ++ toString invalidPart)))
      | none =>
        match collectPartUrls sign partNumbers with
        | .error e => (st, .error e)
        | .ok urls =>
          if session.status = .initiated then
            (st.saveSession sessionId { session with status := .uploading },
             .ok { sessionId := sessionId, parts := urls })
          else
            (st, .ok { sessionId := sessionId, parts := urls })

/-- The uploaded-part upsert of `recordUploadedPart`: replace the eTag of
the first entry carrying `partNumber`, or push a new entry at the end. -/
def upsertPart : List UploadedPart → Nat → String → List UploadedPart
  | [], partNumber, eTag => [⟨partNumber, eTag⟩]
  | p :: ps, partNumber, eTag =>
    if p.partNumber = partNumber then { p with eTag := eTag } :: ps
    else p :: upsertPart ps partNumber eTag

/-- `recordUploadedPart(courseId, sessionId, userId, userRole, payload)`. -/
def recordUploadedPart (st : SysState)
    (courseId sessionId userId userRole : String) (partNumber : Nat)
    (eTag : String) : SysState × Except SvcError RecordResponse :=
  match assertUploadSessionOwnership st courseId sessionId userId userRole with
  | .error e => (st, .error e)
  | .ok session =>
    if session.status = .completed then
      (st, .error (.badRequest "Upload session already completed"))
    else if partNumber < 1 ∨ session.totalParts < partNumber then
      (st, .error (.badRequest "Invalid part number"))
    else
      let session :=
        if session.status = .initiated then
          { session with status := .uploading }
        else session
      let session :=
        { session with
          uploadedParts := upsertPart session.uploadedParts partNumber eTag }
      (st.saveSession sessionId session,
       .ok { sessionId := sessionId, uploadedParts := session.uploadedParts,
             remainingParts :=
               (session.totalParts : Int) - session.uploadedParts.length })

/-- The session-derived tail of `resolveVideoDuration` (everything after
the explicit-argument branch). -/
def resolveVideoDurationFromSession (session : UploadSession) : ℚ :=
  match session.autoDetectDuration, session.providedDuration with
  | false, some p => jsRound p
  | _, _ =>
    match session.resolvedDuration with
    | some r => if 0 < r then jsRound r else 0
    | none => 0

/-- `resolveVideoDuration(session, providedDuration?)`: the duration
resolver.  `providedDuration?` is the optional completion-time duration
(`none` also covers `NaN`, which the source filters out). -/
def resolveVideoDuration (session : UploadSession) (durationArg : Option ℚ) :
    ℚ :=
  match durationArg with
  | some d =>
    if 0 < d then jsRound d else resolveVideoDurationFromSession session
  | none => resolveVideoDurationFromSession session

/-- `buildCompletedUploadResponse(session, video?)`. -/
def buildCompletedUploadResponse (sessionId : String)
    (session : UploadSession) (video : Option Video) : CompleteResponse :=
  { sessionId := sessionId
    status := session.status
    video := video
    duration :=
      match video with
      | some v => some v.duration
      | none => session.resolvedDuration
    uploadedParts := session.uploadedParts
    completedAt := session.completedAt }

/-- The ascending-by-part-number relation of the completion sort. -/
def partLE (a b : CompletePart) : Prop := a.partNumber ≤ b.partNumber

instance : DecidableRel partLE := fun a b => Nat.decLe a.partNumber b.partNumber

/-- `parts.every((part, index) => part.partNumber === index + 1)`, with the
running index made explicit. -/
def isSequentialFrom : Nat → List CompletePart → Bool
  | _, [] => true
  | i, p :: ps => p.partNumber == i + 1 && isSequentialFrom (i + 1) ps

/-- `completeVideoUpload(courseId, sessionId, userId, userRole, payload)`.
`s3Send` is the outcome of the `CompleteMultipartUploadCommand`, `now` the
clock used for `uploadedAt` / `completedAt`. -/
def completeVideoUpload (cfg : S3Config) (st : SysState)
    (courseId sessionId userId userRole : String)
    (parts0 : List CompletePart) (durationArg : Option ℚ)
    (s3Send : Except String Unit) (now : Nat) :
    SysState × Except SvcError CompleteResponse :=
  match assertUploadSessionOwnership st courseId sessionId userId userRole with
  | .error e => (st, .error e)
  | .ok session =>
    if session.status = .completed then
      (st, .ok (buildCompletedUploadResponse sessionId session none))
    else if ((parts0.map CompletePart.partNumber).dedup).length ≠
        parts0.length then
      (st, .error (.badRequest "Duplicate part numbers provided"))
    else
      let parts := parts0.insertionSort partLE
      if session.totalParts ≠ parts.length then
        (st, .error (.badRequest "All parts must be uploaded before completion"))
      else if ¬ isSequentialFrom 0 parts then
        (st, .error (.badRequest "Parts must be sequential starting at 1"))
      else
        match S3Service.completeMultipartUpload s3Send with
        | .error e => (st, .error e)
        | .ok () =>
          let duration := resolveVideoDuration session durationArg
          match st.findCourse courseId with
          | none => (st, .error (.notFound "Course not found"))
          | some course =>
            if userRole ≠ "admin" ∧ course.instructor ≠ userId then
              (st, .error (.forbidden
                "You can only add videos to your own courses"))
            else
              let video : Video :=
                { title := session.title
                  videoUrl := S3Service.getPublicUrl cfg session.s3Key
                  videoKey := session.s3Key
                  duration := duration
                  order := course.videos.length + 1
                  uploadedAt := now
                  fileSize := session.fileSize }
              let st1 := st.saveCourse
                { course with videos := course.videos ++ [video] }
              let session' :=
                { session with
                  status := .completed
                  completedAt := some now
                  resolvedDuration := some duration }
              (st1.saveSession sessionId session',
               .ok (buildCompletedUploadResponse sessionId session'
                 (some video)))

/-- `abortVideoUpload(courseId, sessionId, userId, userRole)`.  `s3Send`
is the outcome of the `AbortMultipartUploadCommand`. -/
def abortVideoUpload (st : SysState)
    (courseId sessionId userId userRole : String)
    (s3Send : Except String Unit) :
    SysState × Except SvcError AbortResponse :=
  match assertUploadSessionOwnership st courseId sessionId userId userRole with
  | .error e => (st, .error e)
  | .ok session =>
    if session.status = .completed then
      (st, .error (.badRequest "Upload session already completed"))
    else
      match S3Service.abortMultipartUpload s3Send with
      | .error e => (st, .error e)
      | .ok () =>
        let session' :=
          { session with
            status := .aborted
            errorMessage := some "Upload aborted by user" }
        (st.saveSession sessionId session',
         .ok { sessionId := sessionId, status := session'.status })

/-! ## Fixtures and auxiliary definitions used by the theorems -/

instance {ε α : Type} [DecidableEq ε] [DecidableEq α] :
    DecidableEq (Except ε α) := fun x y =>
  match x, y with
  | .ok u, .ok v =>
    if h : u = v then .isTrue (by rw [h])
    else .isFalse (by intro hc; cases hc; exact h rfl)
  | .error u, .error v =>
    if h : u = v then .isTrue (by rw [h])
    else .isFalse (by intro hc; cases hc; exact h rfl)
  | .ok _, .error _ => .isFalse (by intro hc; cases hc)
  | .error _, .ok _ => .isFalse (by intro hc; cases hc)

/-! ## Concrete fixtures used by witnesses and counterexamples -/

def cfgW : S3Config := ⟨"bkt", "reg"⟩

def courseW : Course := { id := "c1", instructor := "u1", videos := [] }

/-- A one-part session in state `uploading` with part 1 recorded. -/
def sessW : UploadSession :=
  { course := "c1", instructor := "u1", initiatorRole := "instructor",
    title := "T", fileName := "f.mp4", existingVideoOrder := none,
    fileSize := 10, mimeType := "video/mp4", uploadId := "up1", s3Key := "k1",
    partSize := 5242880, totalParts := 1, uploadedParts := [⟨1, "t1"⟩],
    status := .uploading, autoDetectDuration := true, providedDuration := none,
    resolvedDuration := none, errorMessage := none, expiresAt := 86400000,
    completedAt := none }

def stW : SysState := ⟨[courseW], [("s1", sessW)]⟩

def sessAbortedW : UploadSession := { sessW with status := .aborted }

def stAbortedW : SysState := ⟨[courseW], [("s1", sessAbortedW)]⟩

def sessCompletedW : UploadSession := { sessW with status := .completed }

def stCompletedW : SysState := ⟨[courseW], [("s1", sessCompletedW)]⟩

/-- The first, successful `completeVideoUpload` call on `stW`. -/
def completeCallW : SysState × Except SvcError CompleteResponse :=
  completeVideoUpload cfgW stW "c1" "s1" "u1" "instructor" [⟨1, "t1"⟩] none
    (.ok ()) 7

/-- A second `completeVideoUpload` call, after the first succeeded. -/
def secondCompleteCallW : SysState × Except SvcError CompleteResponse :=
  completeVideoUpload cfgW completeCallW.1 "c1" "s1" "u1" "instructor"
    [⟨1, "t1"⟩] none (.ok ()) 8

/-- The `video` field an upload-completion call returned (`none` on error). -/
def responseVideo : Except SvcError CompleteResponse → Option Video
  | .ok r => r.video
  | .error _ => none

/-- The session of the spec's concrete duration example:
`autoDetectDuration = false`, `providedDuration = 120`. -/
def durationExampleSession : UploadSession :=
  { sessW with autoDetectDuration := false, providedDuration := some 120 }

/-- The arguments of one `recordUploadedPart` request. -/
structure RecordCall where
  courseId : String
  sessionId : String
  userId : String
  userRole : String
  partNumber : Nat
  eTag : String
  deriving DecidableEq, Repr

/-- Run a sequence of `recordUploadedPart` calls, threading the store. -/
def runRecordCalls (st : SysState) : List RecordCall → SysState
  | [] => st
  | c :: cs =>
    runRecordCalls
      (recordUploadedPart st c.courseId c.sessionId c.userId c.userRole
        c.partNumber c.eTag).1 cs

/-- Every stored session's `uploadedParts` has pairwise-distinct part
numbers. -/
def SessionsPartsNodup (st : SysState) : Prop :=
  ∀ p ∈ st.sessions,
    ((p.2.uploadedParts.map UploadedPart.partNumber)).Nodup

instance (st : SysState) : Decidable (SessionsPartsNodup st) :=
  inferInstanceAs (Decidable (∀ p ∈ st.sessions,
    ((p.2.uploadedParts.map UploadedPart.partNumber)).Nodup))

/-- The initiate payload used in the race scenario. -/
def payloadW : InitiateVideoUploadPayload :=
  ⟨"T", "f.mp4", 10, "video/mp4", 5242880, 1, some true, none⟩

/-- A store holding the course and no session: both racing initiates pass
the duplicate check here. -/
def raceStateC9 : SysState := ⟨[courseW], []⟩

def raceSessionA : UploadSession :=
  mkInitSession "c1" "u1" "instructor" payloadW
    ⟨"lectures/videos/uuidA.mp4", "upA", "bkt"⟩ 0

def raceSessionB : UploadSession :=
  mkInitSession "c1" "u1" "instructor" payloadW
    ⟨"lectures/videos/uuidB.mp4", "upB", "bkt"⟩ 0

instance : IsTotal CompletePart partLE :=
  ⟨fun a b => Nat.le_total a.partNumber b.partNumber⟩

instance : IsTrans CompletePart partLE :=
  ⟨fun _ _ _ => Nat.le_trans⟩

/-! ## Helper instances and lemmas -/

lemma assertOwnership_ok_findSession {st : SysState}
    {courseId sessionId userId userRole : String} {s : UploadSession}
    (h : assertUploadSessionOwnership st courseId sessionId userId userRole
      = .ok s) :
    st.findSession sessionId = some s := by
  unfold assertUploadSessionOwnership at h
  split at h
  · cases h
  · split_ifs at h with h1 h2 <;> cases h <;> assumption

/-- C7: initiate is atomic with respect to adapter failure.  When the
`CreateMultipartUploadCommand` fails, `initiateVideoUpload` persists no
`UploadSession` record (the post-state is the pre-state) and throws. -/
theorem initiateVideoUpload_adapterFailure_noPersist
    (cfg : S3Config) (st : SysState) (courseId userId userRole : String)
    (payload : InitiateVideoUploadPayload) (uuid newSessionId : String)
    (now : Nat) (m : String) :
    (initiateVideoUpload cfg st courseId userId userRole payload (.error m)
        uuid newSessionId now).1 = st
    ∧ ∃ e, (initiateVideoUpload cfg st courseId userId userRole payload
        (.error m) uuid newSessionId now).2 = .error e := by
  unfold initiateVideoUpload
  refine ⟨?_, ?_⟩ <;>
  · simp only [S3Service.initiateMultipartUpload]
    repeat' split
    all_goals simp_all

/-- C10: abort is atomic with respect to adapter failure.  When the
`AbortMultipartUploadCommand` fails, `abortVideoUpload` leaves the session
store untouched (in particular the session is not marked `aborted` and no
`errorMessage` is written) and throws. -/
theorem abortVideoUpload_adapterFailure_atomic
    (st : SysState) (courseId sessionId userId userRole : String)
    (m : String) :
    (abortVideoUpload st courseId sessionId userId userRole (.error m)).1 = st
    ∧ ∃ e, (abortVideoUpload st courseId sessionId userId userRole
        (.error m)).2 = .error e := by
  unfold abortVideoUpload
  refine ⟨?_, ?_⟩ <;>
  · simp only [S3Service.abortMultipartUpload]
    repeat' split
    all_goals simp_all

/-! ## C1 -/

/-- C1 counterexample: terminal states other than `Completed` are not
absorbing.  On a session in state `aborted`, `completeVideoUpload` runs to
success and transitions the session to `completed`, and
`recordUploadedPart` still mutates the recorded parts. -/
theorem terminalStates_not_absorbing_counterexample :
    (stAbortedW.findSession "s1").map UploadSession.status = some .aborted
    ∧ (((completeVideoUpload cfgW stAbortedW "c1" "s1" "u1" "instructor"
        [⟨1, "t1"⟩] none (.ok ()) 7).1.findSession "s1").map
        UploadSession.status) = some .completed
    ∧ (((recordUploadedPart stAbortedW "c1" "s1" "u1" "instructor" 1
        "t2").1.findSession "s1").map UploadSession.uploadedParts)
        = some [⟨1, "t2"⟩] := by decide

/-- C1 (amended): only `Completed` is absorbing.  Every operation invoked
on a session whose status is `completed` leaves the session store
unchanged: `completeVideoUpload` returns the memoized response and
`getPresignedPartUrls` / `recordUploadedPart` / `abortVideoUpload` throw
an already-completed error before any write. -/
theorem completedSession_absorbing
    (cfg : S3Config) (st : SysState)
    (courseId sessionId userId userRole : String) (session : UploadSession)
    (parts0 : List CompletePart) (durationArg : Option ℚ)
    (sC sA : Except String Unit) (now : Nat) (partNumbers : List Nat)
    (sign : Nat → Except String String) (partNumber : Nat) (eTag : String)
    (hfind : st.findSession sessionId = some session)
    (hc : session.status = .completed) :
    (completeVideoUpload cfg st courseId sessionId userId userRole parts0
        durationArg sC now).1 = st
    ∧ (getPresignedPartUrls st courseId sessionId userId userRole partNumbers
        sign).1 = st
    ∧ (recordUploadedPart st courseId sessionId userId userRole partNumber
        eTag).1 = st
    ∧ (abortVideoUpload st courseId sessionId userId userRole sA).1 = st := by
  have key : ∀ s, assertUploadSessionOwnership st courseId sessionId userId
      userRole = .ok s → s.status = .completed := by
    intro s hs
    have h2 := assertOwnership_ok_findSession hs
    rw [hfind] at h2
    cases h2
    exact hc
  refine ⟨?_, ?_, ?_, ?_⟩
  · cases hA : assertUploadSessionOwnership st courseId sessionId userId
        userRole with
    | error e => simp [completeVideoUpload, hA]
    | ok s => simp [completeVideoUpload, hA, key s hA]
  · cases hA : assertUploadSessionOwnership st courseId sessionId userId
        userRole with
    | error e => simp [getPresignedPartUrls, hA]
    | ok s => simp [getPresignedPartUrls, hA, key s hA]
  · cases hA : assertUploadSessionOwnership st courseId sessionId userId
        userRole with
    | error e => simp [recordUploadedPart, hA]
    | ok s => simp [recordUploadedPart, hA, key s hA]
  · cases hA : assertUploadSessionOwnership st courseId sessionId userId
        userRole with
    | error e => simp [abortVideoUpload, hA]
    | ok s => simp [abortVideoUpload, hA, key s hA]

/-- C1 witness: the absorbing property applied to a concrete completed
session. -/
theorem completedSession_absorbing_witness :
    (completeVideoUpload cfgW stCompletedW "c1" "s1" "u1" "instructor"
        [⟨1, "t1"⟩] none (.ok ()) 7).1 = stCompletedW
    ∧ (getPresignedPartUrls stCompletedW "c1" "s1" "u1" "instructor" [1]
        (fun _ => .ok "u")).1 = stCompletedW
    ∧ (recordUploadedPart stCompletedW "c1" "s1" "u1" "instructor" 1
        "t2").1 = stCompletedW
    ∧ (abortVideoUpload stCompletedW "c1" "s1" "u1" "instructor"
        (.ok ())).1 = stCompletedW :=
  completedSession_absorbing cfgW stCompletedW "c1" "s1" "u1" "instructor"
    sessCompletedW [⟨1, "t1"⟩] none (.ok ()) (.ok ()) 7 [1]
    (fun _ => .ok "u") 1 "t2" (by decide) (by decide)

/-! ## C2 -/

/-- C2 counterexample: the second `completeVideoUpload` call after success
does not return the previously computed result unchanged — the first call
returns the created video reference, the memoized second response carries
`video := none`. -/
theorem completeUpload_second_call_differs_counterexample :
    (responseVideo completeCallW.2).isSome = true
    ∧ responseVideo secondCompleteCallW.2 = none
    ∧ secondCompleteCallW.2 ≠ completeCallW.2 := by decide

/-- C2 (amended): `completeVideoUpload` on an already-`completed` session
is a read-only memoized call: whatever the adapter outcome would be, it
performs no state change (so no second `Video` is appended and the
adapter's completion is not invoked — the result does not depend on the
adapter argument) and returns `buildCompletedUploadResponse` of the stored
session with an empty `video` field (the stored duration, parts and
`completedAt` are returned, but not the original video reference). -/
theorem completeVideoUpload_memoized_after_success
    (cfg : S3Config) (st : SysState)
    (courseId sessionId userId userRole : String)
    (parts0 : List CompletePart) (durationArg : Option ℚ) (now : Nat)
    (session : UploadSession)
    (hA : assertUploadSessionOwnership st courseId sessionId userId userRole
      = .ok session)
    (hc : session.status = .completed) :
    ∀ a, completeVideoUpload cfg st courseId sessionId userId userRole parts0
        durationArg a now
      = (st, .ok (buildCompletedUploadResponse sessionId session none)) := by
  intro a
  simp [completeVideoUpload, hA, hc]

/-- C2 witness: the memoized second call on a concrete completed session,
with an adapter outcome that would fail if it were consulted. -/
theorem completeVideoUpload_memoized_after_success_witness :
    completeVideoUpload cfgW stCompletedW "c1" "s1" "u1" "instructor"
        [⟨1, "t1"⟩] none (.error "boom") 9
      = (stCompletedW,
         .ok (buildCompletedUploadResponse "s1" sessCompletedW none)) :=
  completeVideoUpload_memoized_after_success cfgW stCompletedW "c1" "s1"
    "u1" "instructor" [⟨1, "t1"⟩] none 9 sessCompletedW (by decide)
    (by decide) (.error "boom")

/-! ## C4 -/

lemma jsRound_nonneg {q : ℚ} (h : 0 ≤ q) : 0 ≤ jsRound q := by
  unfold jsRound
  have h2 : (0 : ℤ) ≤ ⌊q + 1/2⌋ := by
    rw [Int.le_floor]
    push_cast
    linarith
  exact_mod_cast h2

lemma jsRound_ofNat (n : ℕ) : jsRound (n : ℚ) = (n : ℚ) := by
  unfold jsRound
  have h2 : ⌊(n : ℚ) + 1/2⌋ = (n : ℤ) := by
    rw [Int.floor_eq_iff]
    constructor
    · push_cast; linarith
    · push_cast; linarith
  rw [h2]
  push_cast
  rfl

/-- C4: the duration resolver obeys the documented priority order:
(1) a positive completion-time duration wins; otherwise (2) the session's
`providedDuration` when `autoDetectDuration` is false; otherwise (3) a
positive previously-resolved duration; otherwise (4) `0`.  The result is
never negative for any session whose stored `providedDuration` is positive
(which `mkInitSession` guarantees for every DTO-valid initiate payload),
and on the spec's concrete examples: `providedDuration = 120` with no
completion-time duration resolves to `120`, and an explicit completion
duration of `95` resolves to `95`. -/
theorem resolveVideoDuration_priority
    (session : UploadSession) (durationArg : Option ℚ)
    (hpos : ∀ p, session.providedDuration = some p → 0 < p) :
    (∀ d, durationArg = some d → 0 < d →
      resolveVideoDuration session durationArg = jsRound d)
    ∧ ((∀ d, durationArg = some d → d ≤ 0) →
      session.autoDetectDuration = false →
      ∀ p, session.providedDuration = some p →
        resolveVideoDuration session durationArg = jsRound p)
    ∧ ((∀ d, durationArg = some d → d ≤ 0) →
      (session.autoDetectDuration = true ∨ session.providedDuration = none) →
      ∀ r, session.resolvedDuration = some r → 0 < r →
        resolveVideoDuration session durationArg = jsRound r)
    ∧ ((∀ d, durationArg = some d → d ≤ 0) →
      (session.autoDetectDuration = true ∨ session.providedDuration = none) →
      (∀ r, session.resolvedDuration = some r → r ≤ 0) →
        resolveVideoDuration session durationArg = 0)
    ∧ 0 ≤ resolveVideoDuration session durationArg
    ∧ (∀ payload courseId userId userRole r now,
        InitiateVideoUploadPayload.Valid payload →
        ∀ p, (mkInitSession courseId userId userRole payload r
          now).providedDuration = some p → 0 < p)
    ∧ resolveVideoDuration durationExampleSession none = 120
    ∧ resolveVideoDuration durationExampleSession (some 95) = 95 := by
  have hTail :
      ∀ s : UploadSession,
        (s.autoDetectDuration = true ∨ s.providedDuration = none) →
        resolveVideoDurationFromSession s =
          (match s.resolvedDuration with
           | some r => if 0 < r then jsRound r else 0
           | none => 0) := by
    intro s hd
    unfold resolveVideoDurationFromSession
    rcases hd with hd | hd
    · rw [hd]
    · rw [hd]
      cases s.autoDetectDuration <;> rfl
  have hTailNonneg :
      ∀ s : UploadSession,
        (s.autoDetectDuration = true ∨ s.providedDuration = none) →
        0 ≤ resolveVideoDurationFromSession s := by
    intro s hd
    rw [hTail s hd]
    cases hr : s.resolvedDuration with
    | none => norm_num
    | some r =>
      show 0 ≤ if 0 < r then jsRound r else 0
      by_cases h0 : 0 < r
      · rw [if_pos h0]
        exact jsRound_nonneg (le_of_lt h0)
      · rw [if_neg h0]
  have hFromSession :
      ∀ s : UploadSession, (∀ p, s.providedDuration = some p → 0 < p) →
        0 ≤ resolveVideoDurationFromSession s := by
    intro s hs
    cases hp : s.providedDuration with
    | some p =>
      cases hb : s.autoDetectDuration with
      | false =>
        have he : resolveVideoDurationFromSession s = jsRound p := by
          unfold resolveVideoDurationFromSession
          rw [hb, hp]
        rw [he]
        exact jsRound_nonneg (le_of_lt (hs _ hp))
      | true => exact hTailNonneg s (Or.inl hb)
    | none => exact hTailNonneg s (Or.inr hp)
  refine ⟨?_, ?_, ?_, ?_, ?_, ?_, ?_, ?_⟩
  · rintro d rfl hd
    simp [resolveVideoDuration, hd]
  · intro hno hauto p hp
    have hred : resolveVideoDuration session durationArg
        = resolveVideoDurationFromSession session := by
      cases hda : durationArg with
      | none => rfl
      | some d =>
        have hd := hno d hda
        simp [resolveVideoDuration, not_lt.mpr hd]
    rw [hred]
    unfold resolveVideoDurationFromSession
    rw [hauto, hp]
  · intro hno hd r hr h0
    have hred : resolveVideoDuration session durationArg
        = resolveVideoDurationFromSession session := by
      cases hda : durationArg with
      | none => rfl
      | some d =>
        have hd2 := hno d hda
        simp [resolveVideoDuration, not_lt.mpr hd2]
    rw [hred, hTail session hd, hr]
    simp [h0]
  · intro hno hd hr
    have hred : resolveVideoDuration session durationArg
        = resolveVideoDurationFromSession session := by
      cases hda : durationArg with
      | none => rfl
      | some d =>
        have hd2 := hno d hda
        simp [resolveVideoDuration, not_lt.mpr hd2]
    rw [hred, hTail session hd]
    cases hres : session.resolvedDuration with
    | none => rfl
    | some r => simp [not_lt.mpr (hr r hres)]
  · cases durationArg with
    | none => exact hFromSession session hpos
    | some d =>
      show 0 ≤ if 0 < d then jsRound d
          else resolveVideoDurationFromSession session
      by_cases h0 : 0 < d
      · rw [if_pos h0]
        exact jsRound_nonneg (le_of_lt h0)
      · rw [if_neg h0]
        exact hFromSession session hpos
  · intro payload courseId userId userRole r now hvalid p hp
    unfold mkInitSession at hp
    rcases hvalid with ⟨-, -, -, -, hdur⟩
    rcases hdur with hauto | ⟨d, hd, hdpos⟩
    · rw [hauto] at hp
      cases hp
    · cases hab : payload.autoDetectDuration with
      | none =>
        rw [hab] at hp
        simp only [] at hp
        rw [hd] at hp
        cases hp
        exact hdpos
      | some b =>
        cases b with
        | false =>
          rw [hab] at hp
          simp only [] at hp
          rw [hd] at hp
          cases hp
          exact hdpos
        | true =>
          rw [hab] at hp
          cases hp
  · have h120 : resolveVideoDuration durationExampleSession none
        = jsRound 120 := rfl
    rw [h120]
    have h := jsRound_ofNat 120
    push_cast at h
    exact h
  · have h95 : resolveVideoDuration durationExampleSession (some 95)
        = jsRound 95 := by
      show (if (0 : ℚ) < 95 then jsRound 95
            else resolveVideoDurationFromSession durationExampleSession)
          = jsRound 95
      rw [if_pos (by norm_num : (0 : ℚ) < 95)]
    rw [h95]
    have h := jsRound_ofNat 95
    push_cast at h
    exact h

/-- C4 witness: the resolver is non-negative on a concrete session whose
`providedDuration` is absent. -/
theorem resolveVideoDuration_priority_witness :
    0 ≤ resolveVideoDuration sessW none :=
  (resolveVideoDuration_priority sessW none
    (fun _ hp => nomatch hp)).2.2.2.2.1

/-! ## C5 -/

lemma upsertPart_map_eq_of_mem (n : Nat) (tag : String) :
    ∀ parts : List UploadedPart, n ∈ parts.map UploadedPart.partNumber →
      (upsertPart parts n tag).map UploadedPart.partNumber
        = parts.map UploadedPart.partNumber := by
  intro parts
  induction parts with
  | nil => intro h; simp at h
  | cons p ps ih =>
    intro h
    by_cases hp : p.partNumber = n
    · simp [upsertPart, hp]
    · rcases (by simpa using h :
        n = p.partNumber ∨ n ∈ ps.map UploadedPart.partNumber) with h1 | h2
      · exact absurd h1.symm hp
      · simp [upsertPart, hp, ih h2]

lemma upsertPart_eq_append_of_not_mem (n : Nat) (tag : String) :
    ∀ parts : List UploadedPart, n ∉ parts.map UploadedPart.partNumber →
      upsertPart parts n tag = parts ++ [⟨n, tag⟩] := by
  intro parts
  induction parts with
  | nil => intro _; rfl
  | cons p ps ih =>
    intro h
    have hp : p.partNumber ≠ n := by
      intro he
      exact h (by simp [he])
    have h2 : n ∉ ps.map UploadedPart.partNumber := by
      intro hm
      exact h (by simp [hm])
    simp [upsertPart, hp, ih h2]

lemma upsertPart_nodup (n : Nat) (tag : String) (parts : List UploadedPart)
    (h : (parts.map UploadedPart.partNumber).Nodup) :
    ((upsertPart parts n tag).map UploadedPart.partNumber).Nodup := by
  by_cases hm : n ∈ parts.map UploadedPart.partNumber
  · rw [upsertPart_map_eq_of_mem n tag parts hm]
    exact h
  · rw [upsertPart_eq_append_of_not_mem n tag parts hm, List.map_append]
    refine List.Nodup.append h (List.nodup_singleton n) ?_
    intro a ha hb
    rw [List.map_singleton, List.mem_singleton] at hb
    subst hb
    exact hm ha

lemma upsertPart_latest_tag (n : Nat) (tag : String) :
    ∀ parts : List UploadedPart, (parts.map UploadedPart.partNumber).Nodup →
      ∀ q ∈ upsertPart parts n tag, q.partNumber = n → q.eTag = tag := by
  intro parts
  induction parts with
  | nil =>
    intro _ q hq _
    rcases List.mem_singleton.mp hq with rfl
    rfl
  | cons p ps ih =>
    intro hnd q hq hqn
    rw [List.map_cons] at hnd
    have hhead := (List.nodup_cons.mp hnd).1
    have htail := (List.nodup_cons.mp hnd).2
    by_cases hp : p.partNumber = n
    · rw [show upsertPart (p :: ps) n tag
          = { p with eTag := tag } :: ps from by simp [upsertPart, hp]] at hq
      rcases List.mem_cons.mp hq with rfl | hmem
      · rfl
      · exfalso
        apply hhead
        rw [hp, ← hqn]
        exact List.mem_map_of_mem UploadedPart.partNumber hmem
    · rw [show upsertPart (p :: ps) n tag
          = p :: upsertPart ps n tag from by simp [upsertPart, hp]] at hq
      rcases List.mem_cons.mp hq with rfl | hmem
      · exact absurd hqn hp
      · exact ih htail q hmem hqn

lemma sessionsPartsNodup_save (st : SysState) (sid : String)
    (s' : UploadSession) (h : SessionsPartsNodup st)
    (hs : (s'.uploadedParts.map UploadedPart.partNumber).Nodup) :
    SessionsPartsNodup (st.saveSession sid s') := by
  intro p hp
  unfold SysState.saveSession at hp
  simp only [List.mem_map] at hp
  obtain ⟨q, hq, hpq⟩ := hp
  by_cases hqs : q.1 == sid
  · rw [if_pos hqs] at hpq
    rw [← hpq]
    exact hs
  · rw [if_neg hqs] at hpq
    rw [← hpq]
    exact h q hq

lemma findSession_partsNodup {st : SysState} {sid : String}
    {s : UploadSession} (h : SessionsPartsNodup st)
    (hf : st.findSession sid = some s) :
    (s.uploadedParts.map UploadedPart.partNumber).Nodup := by
  unfold SysState.findSession at hf
  cases hfind : st.sessions.find? (fun p => p.1 == sid) with
  | none => rw [hfind] at hf; cases hf
  | some pr =>
    rw [hfind] at hf
    cases hf
    exact h pr (List.mem_of_find?_eq_some hfind)

lemma recordUploadedPart_success_shape
    (st : SysState) (courseId sessionId userId userRole : String) (n : Nat)
    (tag : String) (session : UploadSession)
    (hA : assertUploadSessionOwnership st courseId sessionId userId userRole
      = .ok session)
    (hc : ¬ session.status = .completed)
    (hrange : ¬ (n < 1 ∨ session.totalParts < n)) :
    ∃ session',
      (recordUploadedPart st courseId sessionId userId userRole n tag).1
        = st.saveSession sessionId session'
      ∧ session'.uploadedParts = upsertPart session.uploadedParts n tag := by
  refine ⟨{ (if session.status = .initiated then
        { session with status := .uploading } else session) with
      uploadedParts := upsertPart
        (if session.status = .initiated then
          { session with status := .uploading } else session).uploadedParts
        n tag }, ?_, ?_⟩
  · simp only [recordUploadedPart, hA]
    rw [if_neg hc, if_neg hrange]
  · by_cases hi : session.status = .initiated <;> simp [hi]

lemma recordUploadedPart_preserves_nodup (st : SysState)
    (courseId sessionId userId userRole : String) (n : Nat) (tag : String)
    (h : SessionsPartsNodup st) :
    SessionsPartsNodup
      (recordUploadedPart st courseId sessionId userId userRole n tag).1 := by
  cases hA : assertUploadSessionOwnership st courseId sessionId userId
      userRole with
  | error e =>
    have he : (recordUploadedPart st courseId sessionId userId userRole n
        tag).1 = st := by
      simp [recordUploadedPart, hA]
    rw [he]
    exact h
  | ok session =>
    by_cases hc : session.status = .completed
    · have he : (recordUploadedPart st courseId sessionId userId userRole n
          tag).1 = st := by
        simp [recordUploadedPart, hA, hc]
      rw [he]
      exact h
    · by_cases hrange : n < 1 ∨ session.totalParts < n
      · have he : (recordUploadedPart st courseId sessionId userId userRole n
            tag).1 = st := by
          simp only [recordUploadedPart, hA]
          rw [if_neg hc, if_pos hrange]
        rw [he]
        exact h
      · obtain ⟨session', hshape, hparts⟩ :=
          recordUploadedPart_success_shape st courseId sessionId userId
            userRole n tag session hA hc hrange
        rw [hshape]
        refine sessionsPartsNodup_save st sessionId session' h ?_
        rw [hparts]
        exact upsertPart_nodup n tag session.uploadedParts
          (findSession_partsNodup h (assertOwnership_ok_findSession hA))

lemma runRecordCalls_nodup :
    ∀ (calls : List RecordCall) (st : SysState), SessionsPartsNodup st →
      SessionsPartsNodup (runRecordCalls st calls) := by
  intro calls
  induction calls with
  | nil => intro st h; exact h
  | cons c cs ih =>
    intro st h
    exact ih _ (recordUploadedPart_preserves_nodup st c.courseId c.sessionId
      c.userId c.userRole c.partNumber c.eTag h)

/-- C5: `recordUploadedPart` is an idempotent upsert keyed by part number.
Re-recording an existing part number rewrites that entry's receipt tag in
place (the latest tag wins and no entry is added); a new part number is
appended; consequently a store whose sessions have pairwise-distinct part
numbers keeps that property across any sequence of `recordUploadedPart`
calls, and a non-terminal session accepts an in-range part by saving
exactly the upserted part list. -/
theorem recordUploadedPart_idempotent_upsert
    (st : SysState) (calls : List RecordCall)
    (parts : List UploadedPart) (n : Nat) (tag : String)
    (h : SessionsPartsNodup st)
    (hnd : (parts.map UploadedPart.partNumber).Nodup) :
    SessionsPartsNodup (runRecordCalls st calls)
    ∧ ((upsertPart parts n tag).map UploadedPart.partNumber).Nodup
    ∧ (n ∈ parts.map UploadedPart.partNumber →
        (upsertPart parts n tag).map UploadedPart.partNumber
          = parts.map UploadedPart.partNumber
        ∧ ∀ q ∈ upsertPart parts n tag, q.partNumber = n → q.eTag = tag)
    ∧ (n ∉ parts.map UploadedPart.partNumber →
        upsertPart parts n tag = parts ++ [⟨n, tag⟩])
    ∧ (∀ courseId sessionId userId userRole session,
        assertUploadSessionOwnership st courseId sessionId userId userRole
          = .ok session →
        ¬ session.status = .completed →
        ¬ (n < 1 ∨ session.totalParts < n) →
        ∃ session',
          (recordUploadedPart st courseId sessionId userId userRole n
            tag).1 = st.saveSession sessionId session'
          ∧ session'.uploadedParts = upsertPart session.uploadedParts n
            tag) := by
  refine ⟨runRecordCalls_nodup calls st h,
    upsertPart_nodup n tag parts hnd, ?_, ?_, ?_⟩
  · intro hm
    exact ⟨upsertPart_map_eq_of_mem n tag parts hm,
      upsertPart_latest_tag n tag parts hnd⟩
  · intro hm
    exact upsertPart_eq_append_of_not_mem n tag parts hm
  · intro courseId sessionId userId userRole session hA hc hrange
    exact recordUploadedPart_success_shape st courseId sessionId userId
      userRole n tag session hA hc hrange

/-- C5 witness: one concrete re-record call on a store with one session. -/
theorem recordUploadedPart_idempotent_upsert_witness :
    SessionsPartsNodup
      (runRecordCalls stW [⟨"c1", "s1", "u1", "instructor", 1, "t2"⟩]) :=
  (recordUploadedPart_idempotent_upsert stW
    [⟨"c1", "s1", "u1", "instructor", 1, "t2"⟩] [⟨1, "t1"⟩] 1 "t2"
    (by decide) (by decide)).1

/-! ## C6 and C9 -/

lemma activeSessionCount_eq_zero {st : SysState} {c u : String}
    (h : st.existsActiveSession c u = false) :
    st.activeSessionCount c u = 0 := by
  unfold SysState.activeSessionCount
  rw [List.length_eq_zero, List.filter_eq_nil]
  intro a ha hpa
  have h2 : st.sessions.any (activeSessionFilter c u) = true :=
    List.any_eq_true.mpr ⟨a, ha, hpa⟩
  rw [SysState.existsActiveSession] at h
  rw [h] at h2
  cases h2

lemma activeSessionCount_insert (st : SysState) (sid : String)
    (s : UploadSession) (c u : String) :
    (initiateInsertSession st sid s).activeSessionCount c u
      = st.activeSessionCount c u
        + (if activeSessionFilter c u (sid, s) then 1 else 0) := by
  unfold initiateInsertSession SysState.activeSessionCount
  rw [List.filter_append, List.length_append]
  congr 1
  by_cases hf : activeSessionFilter c u (sid, s) <;> simp [List.filter, hf]

/-- C6: at most one non-terminal session per `(course, instructor)` in
the sequential model.  An otherwise-valid initiate against a state that
already holds a non-terminal session for the pair fails with the
in-progress conflict error and persists nothing; against a state with no
such session it persists exactly one new session, in state `initiated`,
leaving exactly one active session for the pair. -/
theorem initiateVideoUpload_unique_active
    (cfg : S3Config) (st : SysState) (courseId userId userRole : String)
    (payload : InitiateVideoUploadPayload)
    (s3Send : Except String (Option String)) (uuid newSessionId : String)
    (now : Nat) (course : Course)
    (hmime : payload.mimeType ∈ allowedMimeTypes)
    (hcourse : st.findCourse courseId = some course)
    (hrole : userRole = "admin" ∨ course.instructor = userId)
    (hsize : payload.fileSize ≤ 5 * 1024 * 1024 * 1024) :
    (st.existsActiveSession courseId userId = true →
      initiateVideoUpload cfg st courseId userId userRole payload s3Send uuid
          newSessionId now
        = (st, .error (.badRequest
            "An upload session is already in progress for this course")))
    ∧ (st.existsActiveSession courseId userId = false →
      ∀ uploadId, s3Send = .ok (some uploadId) →
      ∃ r, S3Service.initiateMultipartUpload cfg s3Send uuid payload.fileName
            "lectures/videos" = .ok r
        ∧ initiateVideoUpload cfg st courseId userId userRole payload s3Send
            uuid newSessionId now
          = (initiateInsertSession st newSessionId
              (mkInitSession courseId userId userRole payload r now),
             .ok { sessionId := newSessionId, uploadId := r.uploadId,
                   key := r.key, bucket := r.bucket,
                   partSize := payload.partSize,
                   totalParts := payload.totalParts })
        ∧ (mkInitSession courseId userId userRole payload r now).status
            = .initiated
        ∧ (initiateVideoUpload cfg st courseId userId userRole payload s3Send
            uuid newSessionId now).1.activeSessionCount courseId userId
            = 1) := by
  have hmime2 : ¬ payload.mimeType ∉ allowedMimeTypes := not_not_intro hmime
  have hrole2 : ¬ (userRole ≠ "admin" ∧ course.instructor ≠ userId) := by
    rcases hrole with h | h
    · exact fun hc => hc.1 h
    · exact fun hc => hc.2 h
  have hsize2 : ¬ (5 * 1024 * 1024 * 1024 < payload.fileSize) :=
    not_lt.mpr hsize
  constructor
  · intro hex
    simp only [initiateVideoUpload, hcourse]
    rw [if_neg hmime2, if_neg hrole2, if_neg hsize2, if_pos hex]
  · intro hex uploadId hsend
    subst hsend
    have hkey : S3Service.initiateMultipartUpload cfg (.ok (some uploadId))
        uuid payload.fileName "lectures/videos"
        = .ok ⟨stripTrailingSlashes "lectures/videos" ++ "/" ++
            (match fileExtensionOf payload.fileName with
             | some ext => uuid ++ "." ++ ext
             | none => uuid), uploadId, cfg.bucketName⟩ := rfl
    have heq : initiateVideoUpload cfg st courseId userId userRole payload
        (.ok (some uploadId)) uuid newSessionId now
        = (initiateInsertSession st newSessionId
            (mkInitSession courseId userId userRole payload
              ⟨stripTrailingSlashes "lectures/videos" ++ "/" ++
                (match fileExtensionOf payload.fileName with
                 | some ext => uuid ++ "." ++ ext
                 | none => uuid), uploadId, cfg.bucketName⟩ now),
           .ok { sessionId := newSessionId, uploadId := uploadId,
                 key := stripTrailingSlashes "lectures/videos" ++ "/" ++
                   (match fileExtensionOf payload.fileName with
                    | some ext => uuid ++ "." ++ ext
                    | none => uuid),
                 bucket := cfg.bucketName,
                 partSize := payload.partSize,
                 totalParts := payload.totalParts }) := by
      simp only [initiateVideoUpload, hcourse]
      rw [if_neg hmime2, if_neg hrole2, if_neg hsize2,
        if_neg (by rw [hex]; exact Bool.false_ne_true), hkey]
    refine ⟨_, hkey, heq, rfl, ?_⟩
    rw [heq]
    show (initiateInsertSession st newSessionId
        (mkInitSession courseId userId userRole payload _
          now)).activeSessionCount courseId userId = 1
    rw [activeSessionCount_insert, activeSessionCount_eq_zero hex]
    simp [activeSessionFilter, mkInitSession]

/-- C6 witness: a second initiate while a session is `uploading` fails
with the conflict error and persists nothing. -/
theorem initiateVideoUpload_unique_active_witness :
    initiateVideoUpload cfgW stW "c1" "u1" "instructor"
        ⟨"T", "f.mp4", 10, "video/mp4", 5242880, 1, some true, none⟩
        (.ok (some "up2")) "uuid" "s2" 0
      = (stW, .error (.badRequest
          "An upload session is already in progress for this course")) :=
  (initiateVideoUpload_unique_active cfgW stW "c1" "u1" "instructor"
    ⟨"T", "f.mp4", 10, "video/mp4", 5242880, 1, some true, none⟩
    (.ok (some "up2")) "uuid" "s2" 0 courseW (by decide) (by decide)
    (by decide) (by decide)).1 (by decide)

/-- C9 counterexample: the store declares no unique index (only a TTL
index and a plain compound index), the duplicate-session guard is an
application-level read (`findOne`) separate from the insert, and the
check-check-insert-insert interleaving of two initiates persists two
non-terminal sessions for the same `(course, instructor)` — the first
call's own persist step is exactly `initiateInsertSession`. -/
theorem storeUniqueness_absent_counterexample :
    (∀ idx ∈ sessionSchemaIndexes, idx.unique = false)
    ∧ initiateDupCheckPasses raceStateC9 "c1" "u1" = true
    ∧ (initiateVideoUpload cfgW raceStateC9 "c1" "u1" "instructor" payloadW
        (.ok (some "upA")) "uuidA" "sA" 0).1
      = initiateInsertSession raceStateC9 "sA" raceSessionA
    ∧ 1 < (initiateInsertSession (initiateInsertSession raceStateC9 "sA"
        raceSessionA) "sB" raceSessionB).activeSessionCount "c1" "u1" := by
  decide

/-- C9 (amended): the uniqueness constraint is enforced only by the
application-level `findOne`-then-`create` sequence.  No schema index is
unique; after one insert the sequential duplicate check does reject; but
when two initiates both run the check before either insert, both inserts
go through and two non-terminal sessions for the same
`(course, instructor)` are persisted. -/
theorem initiateUniqueness_applicationLevel_only
    (st : SysState) (c u sidA sidB : String) (sA sB : UploadSession)
    (hA : sA.course = c ∧ sA.instructor = u ∧ sA.status = .initiated)
    (hB : sB.course = c ∧ sB.instructor = u ∧ sB.status = .initiated)
    (hchk : initiateDupCheckPasses st c u = true) :
    (∀ idx ∈ sessionSchemaIndexes, idx.unique = false)
    ∧ initiateDupCheckPasses (initiateInsertSession st sidA sA) c u = false
    ∧ (initiateInsertSession (initiateInsertSession st sidA sA) sidB
        sB).activeSessionCount c u = 2 := by
  have hfA : activeSessionFilter c u (sidA, sA) = true := by
    simp [activeSessionFilter, hA.1, hA.2.1, hA.2.2]
  have hfB : activeSessionFilter c u (sidB, sB) = true := by
    simp [activeSessionFilter, hB.1, hB.2.1, hB.2.2]
  have hzero : st.activeSessionCount c u = 0 := by
    apply activeSessionCount_eq_zero
    unfold initiateDupCheckPasses at hchk
    cases hb : st.existsActiveSession c u
    · rfl
    · rw [hb] at hchk
      exact absurd hchk (by decide)
  refine ⟨by decide, ?_, ?_⟩
  · have hx : (initiateInsertSession st sidA sA).existsActiveSession c u
        = true := by
      unfold initiateInsertSession SysState.existsActiveSession
      rw [List.any_eq_true]
      exact ⟨(sidA, sA), by simp, hfA⟩
    unfold initiateDupCheckPasses
    rw [hx]
    rfl
  · rw [activeSessionCount_insert, activeSessionCount_insert, hzero, hfA,
      hfB]
    rfl

/-- C9 witness: the race on the concrete empty store. -/
theorem initiateUniqueness_applicationLevel_only_witness :
    (∀ idx ∈ sessionSchemaIndexes, idx.unique = false)
    ∧ initiateDupCheckPasses (initiateInsertSession raceStateC9 "sA"
        raceSessionA) "c1" "u1" = false
    ∧ (initiateInsertSession (initiateInsertSession raceStateC9 "sA"
        raceSessionA) "sB" raceSessionB).activeSessionCount "c1" "u1"
        = 2 :=
  initiateUniqueness_applicationLevel_only raceStateC9 "c1" "u1" "sA" "sB"
    raceSessionA raceSessionB (by decide) (by decide) (by decide)

/-! ## C3 and C8 -/

lemma isSequentialFrom_iff :
    ∀ (l : List CompletePart) (i : Nat),
      isSequentialFrom i l = true ↔
        l.map CompletePart.partNumber = List.range' (i + 1) l.length := by
  intro l
  induction l with
  | nil => intro i; simp [isSequentialFrom]
  | cons p ps ih =>
    intro i
    simp [isSequentialFrom, List.range'_succ, ih (i + 1)]

lemma dedupLength_iff (l : List Nat) : l.dedup.length = l.length ↔ l.Nodup := by
  constructor
  · intro h
    have hs := (List.dedup_sublist l).eq_of_length h
    rw [← hs]
    exact l.nodup_dedup
  · intro h
    rw [List.dedup_eq_self.mpr h]

/-- The three completion validation checks hold exactly when the submitted
part numbers are a permutation of `1..n`. -/
lemma completeChecks_iff (parts0 : List CompletePart) (n : Nat) :
    (((parts0.map CompletePart.partNumber).dedup).length = parts0.length
     ∧ n = (parts0.insertionSort partLE).length
     ∧ isSequentialFrom 0 (parts0.insertionSort partLE) = true)
    ↔ (parts0.map CompletePart.partNumber).Perm (List.range' 1 n) := by
  have hperm : (parts0.insertionSort partLE).Perm parts0 :=
    List.perm_insertionSort partLE parts0
  have hmapperm :
      ((parts0.insertionSort partLE).map CompletePart.partNumber).Perm
        (parts0.map CompletePart.partNumber) :=
    hperm.map CompletePart.partNumber
  constructor
  · rintro ⟨h1, h2, h3⟩
    rw [isSequentialFrom_iff] at h3
    rw [← h2] at h3
    rw [Nat.zero_add] at h3
    exact h3 ▸ hmapperm.symm
  · intro hp
    have hnd : (parts0.map CompletePart.partNumber).Nodup :=
      (hp.nodup_iff).mpr (List.nodup_range' 1 n)
    have hlenm : (parts0.map CompletePart.partNumber).length = n := by
      rw [hp.length_eq, List.length_range']
    have hlen0 : parts0.length = n := by
      rw [← List.length_map parts0 CompletePart.partNumber]
      exact hlenm
    refine ⟨?_, ?_, ?_⟩
    · rw [List.dedup_eq_self.mpr hnd, List.length_map]
    · rw [List.length_insertionSort]
      exact hlen0.symm
    · rw [isSequentialFrom_iff, Nat.zero_add]
      have hsorted : List.Sorted (· ≤ ·)
          ((parts0.insertionSort partLE).map CompletePart.partNumber) :=
        List.pairwise_map.mpr (List.sorted_insertionSort partLE parts0)
      have hsortedR : List.Sorted (· ≤ ·) (List.range' 1 n) :=
        List.Pairwise.imp le_of_lt (List.pairwise_lt_range' 1 n)
      have hp2 : ((parts0.insertionSort partLE).map
          CompletePart.partNumber).Perm (List.range' 1 n) :=
        hmapperm.trans hp
      have he := List.eq_of_perm_of_sorted hp2 hsorted hsortedR
      rw [he, List.length_insertionSort, hlen0]

/-- When the submitted parts are exactly `1..totalParts`, the completion
call proceeds to the adapter; with a failing adapter the wrapped storage
error surfaces and the store is untouched. -/
lemma completeVideoUpload_reaches_adapter
    (cfg : S3Config) (st : SysState)
    (courseId sessionId userId userRole : String)
    (parts0 : List CompletePart) (durationArg : Option ℚ) (now : Nat)
    (session : UploadSession) (m : String)
    (hA : assertUploadSessionOwnership st courseId sessionId userId userRole
      = .ok session)
    (hnc : ¬ session.status = .completed)
    (hvalid : (parts0.map CompletePart.partNumber).Perm
      (List.range' 1 session.totalParts)) :
    completeVideoUpload cfg st courseId sessionId userId userRole parts0
        durationArg (.error m) now
      = (st, .error (.badRequest
          ("Failed to complete multipart upload: " ++ m))) := by
  obtain ⟨h1, h2, h3⟩ :=
    (completeChecks_iff parts0 session.totalParts).mpr hvalid
  simp only [completeVideoUpload, hA]
  rw [if_neg hnc, if_neg (fun hne => hne h1), if_neg (fun hne => hne h2),
    if_neg (not_not_intro h3)]
  rfl

/-- When the submitted parts are not exactly `1..totalParts`, completion
is rejected before the adapter: one fixed validation message, the result
independent of the adapter outcome, the store untouched. -/
lemma completeVideoUpload_invalid_rejects
    (cfg : S3Config) (st : SysState)
    (courseId sessionId userId userRole : String)
    (parts0 : List CompletePart) (durationArg : Option ℚ) (now : Nat)
    (session : UploadSession)
    (hA : assertUploadSessionOwnership st courseId sessionId userId userRole
      = .ok session)
    (hnc : ¬ session.status = .completed)
    (hinvalid : ¬ (parts0.map CompletePart.partNumber).Perm
      (List.range' 1 session.totalParts)) :
    ∃ msg, ∀ a, completeVideoUpload cfg st courseId sessionId userId userRole
        parts0 durationArg a now
      = (st, .error (.badRequest msg)) := by
  by_cases h1 : ((parts0.map CompletePart.partNumber).dedup).length
      = parts0.length
  · by_cases h2 : session.totalParts = (parts0.insertionSort partLE).length
    · by_cases h3 : isSequentialFrom 0 (parts0.insertionSort partLE) = true
      · exact absurd
          ((completeChecks_iff parts0 session.totalParts).mp ⟨h1, h2, h3⟩)
          hinvalid
      · refine ⟨"Parts must be sequential starting at 1", fun a => ?_⟩
        simp only [completeVideoUpload, hA]
        rw [if_neg hnc, if_neg (fun hne => hne h1),
          if_neg (fun hne => hne h2), if_pos h3]
    · refine ⟨"All parts must be uploaded before completion", fun a => ?_⟩
      simp only [completeVideoUpload, hA]
      rw [if_neg hnc, if_neg (fun hne => hne h1), if_pos h2]
  · refine ⟨"Duplicate part numbers provided", fun a => ?_⟩
    simp only [completeVideoUpload, hA]
    rw [if_neg hnc, if_pos h1]

/-- C3: for a non-terminal session, `completeVideoUpload` proceeds to
finalize the multipart object iff the submitted part numbers are exactly
the set `{1, ..., totalParts}` (no duplicates, no gaps — i.e. a
permutation of `1..totalParts`); any violation is rejected with a
validation error, the store is untouched and the result never consults the
adapter outcome. -/
theorem completeVideoUpload_validates_exact_parts
    (cfg : S3Config) (st : SysState)
    (courseId sessionId userId userRole : String)
    (parts0 : List CompletePart) (durationArg : Option ℚ) (now : Nat)
    (session : UploadSession)
    (hA : assertUploadSessionOwnership st courseId sessionId userId userRole
      = .ok session)
    (hnt : session.status = .initiated ∨ session.status = .uploading) :
    ((parts0.map CompletePart.partNumber).Perm
        (List.range' 1 session.totalParts) →
      ∀ m, completeVideoUpload cfg st courseId sessionId userId userRole
          parts0 durationArg (.error m) now
        = (st, .error (.badRequest
            ("Failed to complete multipart upload: " ++ m))))
    ∧ (¬ (parts0.map CompletePart.partNumber).Perm
        (List.range' 1 session.totalParts) →
      ∃ msg, ∀ a, completeVideoUpload cfg st courseId sessionId userId
          userRole parts0 durationArg a now
        = (st, .error (.badRequest msg))) := by
  have hnc : ¬ session.status = .completed := by
    rcases hnt with h | h <;> simp [h]
  exact ⟨fun hv m => completeVideoUpload_reaches_adapter cfg st courseId
      sessionId userId userRole parts0 durationArg now session m hA hnc hv,
    fun hiv => completeVideoUpload_invalid_rejects cfg st courseId sessionId
      userId userRole parts0 durationArg now session hA hnc hiv⟩

/-- C3 witness: the exact one-part set reaches the adapter on a concrete
session with `totalParts = 1`. -/
theorem completeVideoUpload_validates_exact_parts_witness :
    completeVideoUpload cfgW stW "c1" "s1" "u1" "instructor" [⟨1, "t1"⟩]
        none (.error "boom") 7
      = (stW, .error (.badRequest
          ("Failed to complete multipart upload: " ++ "boom"))) :=
  (completeVideoUpload_validates_exact_parts cfgW stW "c1" "s1" "u1"
    "instructor" [⟨1, "t1"⟩] none 7 sessW (by decide) (by decide)).1
    (by decide) "boom"

/-- C8: `completeVideoUpload` is atomic with respect to adapter
finalization failure.  With a failing `CompleteMultipartUploadCommand` the
post-state always equals the pre-state (status, `uploadedParts`,
`resolvedDuration`, `completedAt` unchanged; no `Video` appended to any
course), and for a non-terminal session with a valid part set the call
throws exactly the wrapped storage error, so the caller can retry. -/
theorem completeVideoUpload_adapterFailure_atomic
    (cfg : S3Config) (st : SysState)
    (courseId sessionId userId userRole : String)
    (parts0 : List CompletePart) (durationArg : Option ℚ) (now : Nat)
    (m : String) :
    (completeVideoUpload cfg st courseId sessionId userId userRole parts0
        durationArg (.error m) now).1 = st
    ∧ (∀ session,
        assertUploadSessionOwnership st courseId sessionId userId userRole
          = .ok session →
        (session.status = .initiated ∨ session.status = .uploading) →
        (parts0.map CompletePart.partNumber).Perm
          (List.range' 1 session.totalParts) →
        completeVideoUpload cfg st courseId sessionId userId userRole parts0
            durationArg (.error m) now
          = (st, .error (.badRequest
              ("Failed to complete multipart upload: " ++ m)))) := by
  constructor
  · simp only [completeVideoUpload, S3Service.completeMultipartUpload]
    repeat' split
    all_goals simp_all
  · intro session hA hnt hv
    have hnc : ¬ session.status = .completed := by
      rcases hnt with h | h <;> simp [h]
    exact completeVideoUpload_reaches_adapter cfg st courseId sessionId
      userId userRole parts0 durationArg now session m hA hnc hv

/-- C8 witness: the atomicity applied on the concrete uploading session. -/
theorem completeVideoUpload_adapterFailure_atomic_witness :
    (completeVideoUpload cfgW stW "c1" "s1" "u1" "instructor" [⟨1, "t1"⟩]
        none (.error "late") 7).1 = stW
    ∧ completeVideoUpload cfgW stW "c1" "s1" "u1" "instructor" [⟨1, "t1"⟩]
        none (.error "late") 7
      = (stW, .error (.badRequest
          ("Failed to complete multipart upload: " ++ "late"))) :=
  ⟨(completeVideoUpload_adapterFailure_atomic cfgW stW "c1" "s1" "u1"
      "instructor" [⟨1, "t1"⟩] none 7 "late").1,
   (completeVideoUpload_adapterFailure_atomic cfgW stW "c1" "s1" "u1"
      "instructor" [⟨1, "t1"⟩] none 7 "late").2 sessW (by decide)
      (by decide) (by decide)⟩
